/-
Verification of the pico_link button lifecycle engine.

Shallow embedding of the parts of smartqasa/pico-link that the claims
C1..C10 are about:

  * custom_components/pico_link/config.py
      (_normalize_int, PicoConfig.validate, parse_pico_config)
  * custom_components/pico_link/const.py (SUPPORTED_BUTTONS, VALID_PICO_TYPES)
  * custom_components/pico_link/controller.py
      (_map_event_payload, _handle_event, the paddle-profile press/release
       handlers and the paddle lifecycle task, _ramp_loop,
       _brightness_in_range)
  * custom_components/pico_link/behaviors.py (SharedBehaviors._ramp)
  * custom_components/pico_link/profile_3brl.py
      (Pico3ButtonRaiseLower._handle_raise_lower, handle_release)
  * custom_components/pico_link/profiles/profile_3brl.py
      (_cover_handle_release, _cover_step)
  * custom_components/pico_link/actions/light_actions.py
      (LightActions._onoff_hold_lifecycle cancellation path)

The asyncio machinery is embedded as an explicit task table inside a
controller state record, plus scheduler events (press, release, a task's
hold-timer firing, a cancelled task unwinding).  The asyncio event loop is
single threaded, so a run of the system is a sequence of such atomic steps;
"A happens before B" in the code becomes "event A precedes event B in the
event list".  Times (hold_time, timestamps) are abstract integers: only
comparisons between them matter to the control flow being modelled.
-/
import Mathlib

namespace PicoLink

/-! ## Action calls

Abstract record of the externally visible actuation requests the engine
makes (spec: the `ActionTarget` surface).  `shortPressOn` / `shortPressOff`
stand for `_short_press_on()` / `_short_press_off()`; `lightStepPct` for the
immediate `turn_on(brightness_step_pct=...)` fired by the 3BRL raise/lower
press; `rampTick` for one brightness-changing call of a ramp loop;
`stopCover` / `setCoverPosition` for the cover service calls. -/

inductive ActionCall where
  | shortPressOn
  | shortPressOff
  | lightStepPct (step : Int)
  | rampTick
  | stopCover
  | setCoverPosition (pos : Int)
deriving DecidableEq

/-! ## Tasks and controller state -/

/-- Status of an asyncio task: `running` (alive, `done()` is false),
`cancelled` (cancel() was requested but the task has not yet unwound;
`done()` is still false), `finished` (`done()` is true). -/
inductive TStatus where
  | running
  | cancelled
  | finished
deriving DecidableEq

/-- Which suspension the task body is sitting in: the hold-time sleep
or the ramp loop. -/
inductive TPhase where
  | sleeping
  | ramping
deriving DecidableEq

/-- One asyncio task spawned by a handler.  `button` is the logical button
it belongs to; `isLifecycle` is false for fire-and-forget one-shot tasks. -/
structure TaskRec where
  button : String
  isLifecycle : Bool
  status : TStatus
  phase : TPhase
deriving DecidableEq

/-- Pointwise update of a function, used for the `_pressed` / `_tasks`
dictionaries keyed by button name and the task table keyed by task id. -/
def fupd {α : Type} [DecidableEq α] {β : Type} (f : α → β) (k : α) (v : β) : α → β :=
  fun x => if x = k then v else f x

/-- State of one `PicoController`: the `_pressed` dict, the `_tasks` dict
(holding the id of the stored task, or none), the table of all tasks ever
spawned (`taskOf`), a fresh-id counter, and the accumulated list of
actuation calls made so far. -/
structure CState where
  pressed : String → Bool
  tasks : String → Option Nat
  taskOf : Nat → Option TaskRec
  nextId : Nat
  calls : List ActionCall

/-- Controller state at start: nothing pressed, no tasks, no calls. -/
def initState : CState :=
  ⟨fun _ => false, fun _ => none, fun _ => none, 0, []⟩

/-! ## Paddle-profile handlers (controller.py)

`PicoController._handle_press_paddle` (controller.py lines 141-149), and the
identically structured `PaddleSwitchPico.handle_press`
(profiles/profile_p2b.py lines 22-37): cancel a non-done stored task, mark
the button pressed, spawn the lifecycle task and store its handle. -/

def handle_press_paddle (b : String) (s : CState) : CState :=
  let s1 : CState :=
    match s.tasks b with
    | some t =>
      match s.taskOf t with
      | some rec =>
        if rec.status ≠ TStatus.finished then
          let rec1 : TaskRec := ⟨rec.button, rec.isLifecycle, TStatus.cancelled, rec.phase⟩
          { s with taskOf := fupd s.taskOf t (some rec1) }
        else s
      | none => s
    | none => s
  let s2 : CState := { s1 with pressed := fupd s1.pressed b true }
  let fresh : TaskRec := ⟨b, true, TStatus.running, TPhase.sleeping⟩
  { s2 with
      taskOf := fupd s2.taskOf s2.nextId (some fresh),
      tasks := fupd s2.tasks b (some s2.nextId),
      nextId := s2.nextId + 1 }

/-- PicoController._handle_release_paddle (controller.py lines 151-152) and
`PaddleSwitchPico.handle_release` (profiles/profile_p2b.py lines 39-47):
only clears the pressed flag; the lifecycle task is deliberately left
running so that it can decide tap vs hold. -/
def handle_release_paddle (b : String) (s : CState) : CState :=
  { s with pressed := fupd s.pressed b false }

/-- Short-press call chosen by the paddle lifecycle body for a button
(`if button == "on": _short_press_on() else: _short_press_off()`). -/
def tap_call (b : String) : ActionCall :=
  if b = "on" then ActionCall.shortPressOn else ActionCall.shortPressOff

/-- Completion of the paddle lifecycle task via a tap: emit the short-press
call, then run the `finally` block of `_press_lifecycle_paddle`
(controller.py lines 180-182), which sets `_pressed[button] = False` and
`_tasks[button] = None` unconditionally. -/
def finish_tap (b : String) (t : Nat) (rec : TaskRec) (s : CState) : CState :=
  let rec1 : TaskRec := ⟨rec.button, rec.isLifecycle, TStatus.finished, rec.phase⟩
  { s with
      calls := s.calls ++ [tap_call b],
      pressed := fupd s.pressed b false,
      tasks := fupd s.tasks b none,
      taskOf := fupd s.taskOf t (some rec1) }

/-- The hold timer of task `t` fires without the task having been cancelled:
the body of `_press_lifecycle_paddle` (controller.py lines 154-182) after
`await asyncio.sleep(self._hold_time)` returns.  If the button is no longer
pressed the task fires the tap; otherwise, in the light domain it enters
the ramp loop, and in any other domain it acts immediately like a tap. -/
def wake_task (domain : String) (t : Nat) (s : CState) : CState :=
  match s.taskOf t with
  | some rec =>
    if rec.status = TStatus.running ∧ rec.phase = TPhase.sleeping ∧ rec.isLifecycle = true then
      if s.pressed rec.button = false then
        finish_tap rec.button t rec s
      else if domain = "light" then
        let rec1 : TaskRec := ⟨rec.button, rec.isLifecycle, TStatus.running, TPhase.ramping⟩
        { s with taskOf := fupd s.taskOf t (some rec1) }
      else
        finish_tap rec.button t rec s
    else s
  | none => s

/-- A cancelled paddle lifecycle task is resumed by the event loop and
unwinds: `except asyncio.CancelledError: pass` makes no calls, then the
`finally` block (controller.py lines 180-182) sets `_pressed[button] =
False` and `_tasks[button] = None` — regardless of which task currently
occupies the `_tasks[button]` slot. -/
def unwind_task (t : Nat) (s : CState) : CState :=
  match s.taskOf t with
  | some rec =>
    if rec.status = TStatus.cancelled then
      let rec1 : TaskRec := ⟨rec.button, rec.isLifecycle, TStatus.finished, rec.phase⟩
      { s with
          pressed := fupd s.pressed rec.button false,
          tasks := fupd s.tasks rec.button none,
          taskOf := fupd s.taskOf t (some rec1) }
    else s
  | none => s

/-- One brightness-changing iteration of the ramp a paddle lifecycle task is
running (the loop itself is modelled in depth by `ramp_go` / `ramp_loop_go`
below; here only the fact that a running, held, ramping task emits ramp
ticks is needed). -/
def ramp_tick_ev (t : Nat) (s : CState) : CState :=
  match s.taskOf t with
  | some rec =>
    if rec.status = TStatus.running ∧ rec.phase = TPhase.ramping ∧ s.pressed rec.button = true then
      { s with calls := s.calls ++ [ActionCall.rampTick] }
    else s
  | none => s

/-- Atomic scheduler steps of a paddle-profile run: the external press and
release inputs (routed through `_handle_paddle_event`, controller.py lines
132-139, which ignores buttons other than on/off), the natural firing of a
task's hold timer, the unwinding of a cancelled task, and a ramp tick. -/
inductive PEv where
  | press (b : String)
  | release (b : String)
  | wake (t : Nat)
  | unwind (t : Nat)
  | rampTick (t : Nat)

/-- Dispatch one scheduler step (the `_handle_paddle_event` guard restricts
press/release to the on/off buttons). -/
def paddle_step (domain : String) (s : CState) (e : PEv) : CState :=
  match e with
  | PEv.press b => if b = "on" ∨ b = "off" then handle_press_paddle b s else s
  | PEv.release b => if b = "on" ∨ b = "off" then handle_release_paddle b s else s
  | PEv.wake t => wake_task domain t s
  | PEv.unwind t => unwind_task t s
  | PEv.rampTick t => ramp_tick_ev t s

/-- Run a sequence of scheduler steps. -/
def paddle_run (domain : String) (es : List PEv) (s : CState) : CState :=
  es.foldl (paddle_step domain) s

/-! ## 3BRL-profile handlers (profile_3brl.py)

The raise/lower press handler of `Pico3ButtonRaiseLower._handle_raise_lower`
(profile_3brl.py lines 114-134), light-domain branch: set the pressed flag,
fire the immediate tap-step service call (spawned as an untracked
fire-and-forget task, modelled here by its eventual service call), then
spawn the hold/ramp lifecycle task and store its handle — overwriting
whatever handle was stored before, without cancelling it.
(profiles/profile_3brl.py lines 142-157 is the same logic.) -/

def handle_press_3brl_light (step_pct : Int) (b : String) (s : CState) : CState :=
  if b = "raise" ∨ b = "lower" then
    let direction : Int := if b = "raise" then 1 else -1
    let s1 : CState :=
      { s with
          pressed := fupd s.pressed b true,
          calls := s.calls ++ [ActionCall.lightStepPct (step_pct * direction)] }
    let fresh : TaskRec := ⟨b, true, TStatus.running, TPhase.sleeping⟩
    { s1 with
        taskOf := fupd s1.taskOf s1.nextId (some fresh),
        tasks := fupd s1.tasks b (some s1.nextId),
        nextId := s1.nextId + 1 }
  else s

/-- Pico3ButtonRaiseLower.handle_release (profile_3brl.py lines 42-48),
raise/lower branch: clear the pressed flag, cancel the stored task when it
is not done, and clear the handle to none. -/
def handle_release_3brl (b : String) (s : CState) : CState :=
  if b = "raise" ∨ b = "lower" then
    let s1 : CState := { s with pressed := fupd s.pressed b false }
    let s2 : CState :=
      match s1.tasks b with
      | some t =>
        match s1.taskOf t with
        | some rec =>
          if rec.status ≠ TStatus.finished then
            let rec1 : TaskRec := ⟨rec.button, rec.isLifecycle, TStatus.cancelled, rec.phase⟩
            { s1 with taskOf := fupd s1.taskOf t (some rec1) }
          else s1
        | none => s1
      | none => s1
    { s2 with tasks := fupd s2.tasks b none }
  else s

/-! ## LightActions cancellation path (actions/light_actions.py) -/

/-- A cancelled `LightActions._onoff_hold_lifecycle` task
(light_actions.py lines 214-228) unwinds: `except asyncio.CancelledError:
pass` and no `finally` block — the task ends without touching `_pressed`,
`_tasks` or `_is_holding` and without making any call. -/
def onoff_unwind (t : Nat) (s : CState) : CState :=
  match s.taskOf t with
  | some rec =>
    if rec.status = TStatus.cancelled then
      let rec1 : TaskRec := ⟨rec.button, rec.isLifecycle, TStatus.finished, rec.phase⟩
      { s with taskOf := fupd s.taskOf t (some rec1) }
    else s
  | none => s

/-! ## 3BRL cover release path (profiles/profile_3brl.py) -/

/-- Modelled from the spec: `PicoController.cover_stop` is awaited by
`_cover_handle_release` but its body is not under src (only this caller
is); per spec section 6, `Stop()` is an immediate-halt actuation call (and
the repository's own `CoverActions._stop` issues the `stop_cover` service
call). -/
def cover_stop_call : ActionCall := ActionCall.stopCover

/-- Modelled from the spec: `PicoController.cover_set_position` is awaited
by `_cover_step` but its body is not under src; per spec section 6 it is
one discrete position actuation call (`set_cover_position`). -/
def cover_set_position_call (pos : Int) : ActionCall := ActionCall.setCoverPosition pos

/-- Pico3ButtonRaiseLower._cover_step (profiles/profile_3brl.py lines
230-237): adjust by step_pct relative to the current position, clamped to
0..100. -/
def cover_step (b : String) (pos step_pct : Int) : ActionCall :=
  if b = "raise" then cover_set_position_call (min 100 (pos + step_pct))
  else cover_set_position_call (max 0 (pos - step_pct))

/-- Pico3ButtonRaiseLower._cover_handle_release (profiles/profile_3brl.py
lines 207-228): clears the pressed flag, computes the elapsed press time
(press timestamp defaulting to `now` when the button was never pressed),
then: if the cover position is unknown, stop the cover and return; else
step by `step_pct or 5` when elapsed < hold_time, and always stop the
cover.  `press_ts`, `now` and `hold_time` are abstract integer times. -/
def cover_handle_release (hold_time step_pct : Int) (b : String)
    (press_ts : Option Int) (now : Int) (pos : Option Int) (s : CState) : CState :=
  let s0 : CState := { s with pressed := fupd s.pressed b false }
  let start := press_ts.getD now
  let elapsed := now - start
  match pos with
  | none => { s0 with calls := s0.calls ++ [cover_stop_call] }
  | some p =>
    let sp := if step_pct = 0 then 5 else step_pct
    let s1 : CState :=
      if elapsed < hold_time then
        { s0 with calls := s0.calls ++ [cover_step b p sp] }
      else s0
    { s1 with calls := s1.calls ++ [cover_stop_call] }

/-! ## Ramp loops

Two embeddings: `ramp_go` is the loop body of `SharedBehaviors._ramp`
(behaviors.py lines 216-250) and `ramp_loop_go` the loop body of
`PicoController._ramp_loop` (controller.py lines 340-354).  Both loops read
`self._pressed[button]` at the top of each iteration; that concurrent read
is embedded as a function `pressed : Nat → Bool` of the iteration index.
`ticks` counts the brightness-changing `turn_on` service calls the loop
makes; `outcome = none` means the loop was still running when the given
fuel ran out (fuel counts loop iterations — the loops have no fuel in the
source, so termination within a fuel bound is exactly the property at
stake).  The preamble of `_ramp` (behaviors.py lines 194-214) computes
`step_value = round(255*step_pct/100)`, `min_brightness =
max(1, round(255*low_pct/100))` and the starting brightness from the entity
state; the theorems below quantify over those computed values. -/

inductive RampStop where
  | released
  | capReached
  | boundary
deriving DecidableEq

structure RampOut where
  ticks : Nat
  outcome : Option RampStop
deriving DecidableEq

/-- Loop of `SharedBehaviors._ramp`: while pressed, stop with an error log
once `steps >= MAX_STEPS (100)`; otherwise increment steps, compute
`next_b = current + step_value * direction`; if `next_b` crosses the
min/max bound make one final clamping `turn_on` call and return; else make
the regular `turn_on(brightness=next_b)` call and continue. -/
def ramp_go (pressed : Nat → Bool) (direction step_value min_brightness : Int)
    (current : Int) (steps iter fuel : Nat) : RampOut :=
  match fuel with
  | 0 => ⟨0, none⟩
  | fuel' + 1 =>
    if pressed iter = false then ⟨0, some RampStop.released⟩
    else if steps ≥ 100 then ⟨0, some RampStop.capReached⟩
    else
      let next_b := current + step_value * direction
      if direction < 0 ∧ next_b ≤ min_brightness then ⟨1, some RampStop.boundary⟩
      else if direction > 0 ∧ next_b ≥ 255 then ⟨1, some RampStop.boundary⟩
      else
        let r := ramp_go pressed direction step_value min_brightness next_b
          (steps + 1) (iter + 1) fuel'
        ⟨r.ticks + 1, r.outcome⟩

/-- PicoController._brightness_in_range (controller.py lines 356-375):
false when there are no entities or the primary entity has no state; true
when the state has no brightness attribute; else false exactly when the
brightness is at/beyond 254 going up or at/below 1 going down.
`state_of e = none` models a missing state, `some none` a state without a
brightness attribute. -/
def brightness_in_range (entities : List String)
    (state_of : String → Option (Option Int)) (direction : Int) : Bool :=
  match entities with
  | [] => false
  | e :: _ =>
    match state_of e with
    | none => false
    | some none => true
    | some (some b) =>
      if direction > 0 ∧ b ≥ 254 then false
      else if direction < 0 ∧ b ≤ 1 then false
      else true

/-- Loop of `PicoController._ramp_loop`: while pressed, make the
`turn_on(brightness_step_pct=step)` call, then break if
`_brightness_in_range` says the boundary was reached, else sleep and
re-check.  `in_range i` is the value `await self._brightness_in_range(...)`
returns at iteration `i`.  There is no step counter in this loop. -/
def ramp_loop_go (pressed in_range : Nat → Bool) (iter fuel : Nat) : RampOut :=
  match fuel with
  | 0 => ⟨0, none⟩
  | fuel' + 1 =>
    if pressed iter = false then ⟨0, some RampStop.released⟩
    else if in_range iter = false then ⟨1, some RampStop.boundary⟩
    else
      let r := ramp_loop_go pressed in_range (iter + 1) fuel'
      ⟨r.ticks + 1, r.outcome⟩

/-! ## Event payload mapping and dispatch guards (controller.py, const.py) -/

/-- const.py SUPPORTED_BUTTONS. -/
def SUPPORTED_BUTTONS : List String :=
  ["button_1", "button_2", "button_3", "lower", "off", "on", "raise", "stop"]

/-- Python str.lower for the ASCII button/action keywords at stake. -/
def lowerStr (s : String) : String := String.mk (s.data.map Char.toLower)

/-- PicoController._map_event_payload (controller.py lines 109-126): read
`button_type` and `action` from the payload (absent keys give none, and the
empty string is falsy like an absent key), lowercase both, and drop the
event unless the action is "press" or "release". -/
def map_event_payload (button_type action : Option String) :
    Option (String × String) :=
  match button_type, action with
  | some b, some a =>
    if b = "" ∨ a = "" then none
    else
      let b' := lowerStr b
      let a' := lowerStr a
      if a' = "press" ∨ a' = "release" then some (b', a') else none
  | _, _ => none

/-- The `_handle_event` callback installed by `async_start` (controller.py
lines 50-82): drop the event when the device id does not match, when
`_map_event_payload` rejects it, or when the (lowercased) button is not in
SUPPORTED_BUTTONS; otherwise route to the active profile's handler.  The
four profile dispatch branches are abstracted as the `route` argument; the
claims settled on this definition concern only the dropping guards. -/
def handle_event {σ : Type} (conf_device_id : String)
    (route : String → String → σ → σ × List ActionCall)
    (device_id button_type action : Option String) (s : σ) :
    σ × List ActionCall :=
  if device_id ≠ some conf_device_id then (s, [])
  else
    match map_event_payload button_type action with
    | none => (s, [])
    | some (b, a) =>
      if b ∈ SUPPORTED_BUTTONS then route b a s else (s, [])

/-! ## Configuration (config.py, const.py) -/

/-- const.py VALID_PICO_TYPES. -/
def VALID_PICO_TYPES : List String := ["P2B", "2B", "3BRL", "4B"]

/-- config.py `_normalize_int` (lines 131-141): `int(raw_val)` either
yields an integer or raises (modelled by `Option Int`, none meaning the
conversion failed and `val = default` is used); a converted value of 0 also
falls back to the default; anything else is clamped into
[min_val, max_val] by `max(min_val, min(max_val, val))`.  The function is
total: it never raises. -/
def normalize_int (raw : Option Int) (dflt min_val max_val : Int) : Int :=
  let val :=
    match raw with
    | none => dflt
    | some v => v
  if val = 0 then dflt
  else max min_val (min max_val val)

/-- The YAML value found under `buttons:`: either not a mapping at all, or
a mapping with the given button keys (the per-button action lists do not
matter to validation). -/
inductive ButtonsVal where
  | invalid
  | mapping (keys : List String)
deriving DecidableEq

/-- config.py PicoConfig — the fields `validate` reads.  The remaining
fields (timings, percentages, middle_button) are carried by the separate
definitions that use them. -/
structure PicoConfig where
  device_id : String
  type : String
  covers : List String
  fans : List String
  lights : List String
  media_players : List String
  switches : List String
  buttons : ButtonsVal
deriving DecidableEq

/-- The `active_domains` count of PicoConfig.validate (config.py lines
68-75): how many of the five entity-domain lists are non-empty
(`bool(list)` is its non-emptiness). -/
def PicoConfig.activeDomains (c : PicoConfig) : Nat :=
  (if c.covers ≠ [] then 1 else 0) + (if c.fans ≠ [] then 1 else 0) +
  (if c.lights ≠ [] then 1 else 0) + (if c.media_players ≠ [] then 1 else 0) +
  (if c.switches ≠ [] then 1 else 0)

/-- The `not isinstance(self.buttons, dict) or not self.buttons` test of
config.py line 87. -/
def PicoConfig.buttonsMissing (c : PicoConfig) : Bool :=
  match c.buttons with
  | ButtonsVal.invalid => true
  | ButtonsVal.mapping [] => true
  | ButtonsVal.mapping (_ :: _) => false

/-- config.py PicoConfig.validate (lines 58-108); `Except.error` models a
raised ValueError. -/
def PicoConfig.validate (c : PicoConfig) : Except String Unit :=
  if c.type ∉ VALID_PICO_TYPES then
    Except.error "Invalid Pico type"
  else if c.type = "4B" then
    if c.activeDomains ≠ 0 then
      Except.error "4B cannot define domains"
    else if c.buttonsMissing then
      Except.error "4B must define a non-empty buttons block"
    else Except.ok ()
  else if c.activeDomains = 0 then
    Except.error "No target domain configured"
  else if c.activeDomains > 1 then
    Except.error "Multiple domains configured"
  else Except.ok ()

/-- Number of lifecycle tasks for button `b` that are currently running
(alive and not cancel-requested) — the quantity the supersede-on-repress
invariant says never exceeds 1. -/
def running_lifecycle_count (s : CState) (b : String) : Nat :=
  ((List.range s.nextId).filter (fun t =>
    match s.taskOf t with
    | some rec =>
      decide (rec.button = b) && rec.isLifecycle && decide (rec.status = TStatus.running)
    | none => false)).length

/-! ## Theorems -/

/-- Claim C9: for min_val ≤ default ≤ max_val, `_normalize_int` is total
(never raises), returns the default when the raw value is 0 or cannot be
converted to an int, otherwise returns the converted value clamped into
[min_val, max_val]; in every case the result lies in [min_val, max_val].
In particular a configured hold_time_ms/step_time_ms of 50 — below the
minimum of 100 used by parse_pico_config (config.py lines 209-210) — is
silently raised to 100, not rejected. -/
theorem claim_C9_normalize_int (raw : Option Int) (dflt min_val max_val : Int)
    (h1 : min_val ≤ dflt) (h2 : dflt ≤ max_val) :
    (raw = none → normalize_int raw dflt min_val max_val = dflt)
  ∧ (raw = some 0 → normalize_int raw dflt min_val max_val = dflt)
  ∧ (∀ v : Int, raw = some v → v ≠ 0 →
      normalize_int raw dflt min_val max_val = max min_val (min max_val v))
  ∧ min_val ≤ normalize_int raw dflt min_val max_val
  ∧ normalize_int raw dflt min_val max_val ≤ max_val
  ∧ normalize_int (some 50) 400 100 2000 = 100 := by
  have hclamp : ∀ v : Int, min_val ≤ max min_val (min max_val v) ∧
      max min_val (min max_val v) ≤ max_val := by
    intro v
    exact ⟨le_max_left _ _, max_le (le_trans h1 h2) (min_le_left _ _)⟩
  have hd : max min_val (min max_val dflt) = dflt := by
    rw [min_eq_right h2, max_eq_right h1]
  have hres : normalize_int raw dflt min_val max_val = dflt ∨
      ∃ v : Int, normalize_int raw dflt min_val max_val = max min_val (min max_val v) := by
    cases raw with
    | none =>
      by_cases h0 : dflt = 0
      · left
        simp [normalize_int, h0]
      · right
        exact ⟨dflt, by simp [normalize_int, h0]⟩
    | some v =>
      by_cases h0 : v = 0
      · left
        simp [normalize_int, h0]
      · right
        exact ⟨v, by simp [normalize_int, h0]⟩
  have hbounds : min_val ≤ normalize_int raw dflt min_val max_val ∧
      normalize_int raw dflt min_val max_val ≤ max_val := by
    rcases hres with h | ⟨v, h⟩
    · rw [h]
      exact ⟨h1, h2⟩
    · rw [h]
      exact hclamp v
  refine ⟨?_, ?_, ?_, hbounds.1, hbounds.2, by decide⟩
  · rintro rfl
    by_cases h0 : dflt = 0 <;> simp [normalize_int, h0, hd]
  · rintro rfl
    simp [normalize_int]
  · rintro v rfl hv
    simp [normalize_int, hv]

/-- Witness for C9 at raw value 7, defaults 400 in [100, 2000]. -/
theorem claim_C9_witness :
    100 ≤ normalize_int (some 7) 400 100 2000 ∧
    normalize_int (some 7) 400 100 2000 ≤ 2000 :=
  ⟨(claim_C9_normalize_int (some 7) 400 100 2000 (by decide) (by decide)).2.2.2.1,
   (claim_C9_normalize_int (some 7) 400 100 2000 (by decide) (by decide)).2.2.2.2.1⟩

/-- Claim C10: PicoConfig.validate raises ValueError exactly when the type
is invalid; or the type is 4B and some entity-domain list is non-empty or
the buttons mapping is empty/not a dict; or the type is not 4B and the
number of non-empty entity-domain lists differs from 1.  Consequently a
config that passes validation (which parse_pico_config requires before
returning, config.py line 329) has exactly one non-empty entity-domain
list unless its type is 4B, in which case it has none and a non-empty
buttons mapping. -/
theorem claim_C10_validate (c : PicoConfig) :
    (c.validate ≠ Except.ok () ↔
      (c.type ∉ VALID_PICO_TYPES ∨
       (c.type = "4B" ∧ (c.activeDomains ≠ 0 ∨ c.buttonsMissing = true)) ∨
       (c.type ≠ "4B" ∧ c.activeDomains ≠ 1)))
  ∧ (c.validate = Except.ok () →
      ((c.type ≠ "4B" → c.activeDomains = 1) ∧
       (c.type = "4B" → c.activeDomains = 0 ∧ c.buttonsMissing = false))) := by
  unfold PicoConfig.validate
  split_ifs with h1 h2 h3 h4 h5 h6 <;> simp_all <;> omega

/-- Witness for C10: a 3BRL light config passes validation and indeed has
exactly one active entity-domain list. -/
theorem claim_C10_witness :
    PicoConfig.activeDomains
      ⟨"dev1", "3BRL", [], [], ["light.kitchen"], [], [], ButtonsVal.mapping []⟩ = 1 :=
  ((claim_C10_validate
      ⟨"dev1", "3BRL", [], [], ["light.kitchen"], [], [], ButtonsVal.mapping []⟩).2
    rfl).1 (by decide)

/-- Claim C8: an incoming event whose action keyword is not "press" or
"release" after lowercasing, or whose (lowercased) button name is not in
SUPPORTED_BUTTONS, is dropped by `_handle_event`: the state is unchanged,
no profile handler runs and no action call is made, and nothing is raised
(the embedding is total). -/
theorem claim_C8_event_dropped {σ : Type} (cid : String)
    (route : String → String → σ → σ × List ActionCall)
    (dev : Option String) (bt a : String) (s : σ)
    (h : lowerStr a ∉ ["press", "release"] ∨ lowerStr bt ∉ SUPPORTED_BUTTONS) :
    handle_event cid route dev (some bt) (some a) s = (s, []) := by
  by_cases hdev : dev ≠ some cid
  · simp [handle_event, hdev]
  · rcases h with h | h
    · have ha : ¬ (lowerStr a = "press" ∨ lowerStr a = "release") := by
        simpa using h
      by_cases he : bt = "" ∨ a = "" <;>
        simp [handle_event, map_event_payload, hdev, he, ha]
    · by_cases he : bt = "" ∨ a = "" <;>
        by_cases ha : lowerStr a = "press" ∨ lowerStr a = "release" <;>
        simp [handle_event, map_event_payload, hdev, he, ha, h]

/-- Witness for C8: a "hold" action on a matching device is dropped even
though the routing table would emit a call. -/
theorem claim_C8_witness :
    handle_event "dev1" (fun _ _ n => (n + 1, [ActionCall.shortPressOn]))
      (some "dev1") (some "on") (some "hold") (0 : Nat) = (0, []) :=
  claim_C8_event_dropped "dev1" (fun _ _ n => (n + 1, [ActionCall.shortPressOn]))
    (some "dev1") "on" "hold" 0 (Or.inl (by decide))

/-- Claim C3: a paddle-profile press followed by a release strictly before
the hold time (so the release step precedes the hold-timer firing) and by
no further press makes exactly one short-press call — `_short_press_on`
for "on", `_short_press_off` for "off" — and zero ramp ticks: the
lifecycle task wakes, observes pressed == false, fires the tap, and its
finally block clears the button state.  Holds for every domain. -/
theorem claim_C3_tap_before_hold (domain b : String) (hb : b = "on" ∨ b = "off") :
    (paddle_run domain [PEv.press b, PEv.release b, PEv.wake 0] initState).calls
      = [tap_call b]
  ∧ (paddle_run domain [PEv.press b, PEv.release b, PEv.wake 0] initState).tasks b = none
  ∧ (paddle_run domain [PEv.press b, PEv.release b, PEv.wake 0] initState).pressed b
      = false := by
  rcases hb with rfl | rfl <;> exact ⟨rfl, rfl, rfl⟩

/-- Witness for C3: a tap on "on" in the light domain yields exactly the
one `_short_press_on` call. -/
theorem claim_C3_witness :
    (paddle_run "light" [PEv.press "on", PEv.release "on", PEv.wake 0] initState).calls
      = [ActionCall.shortPressOn] :=
  (claim_C3_tap_before_hold "light" "on" (Or.inl rfl)).1

/-- Claim C4 counterexample: after a paddle press of "on" (task 0 stored,
running) a release clears the pressed flag but neither cancels the running
lifecycle task nor clears the stored handle — refuting the claim that
handling a Release cancels a still-running active task and clears the
handle to none. -/
theorem claim_C4_counterexample :
    (paddle_run "light" [PEv.press "on", PEv.release "on"] initState).pressed "on" = false
  ∧ (paddle_run "light" [PEv.press "on", PEv.release "on"] initState).tasks "on" = some 0
  ∧ ((paddle_run "light" [PEv.press "on", PEv.release "on"] initState).taskOf 0).map
      TaskRec.status = some TStatus.running :=
  ⟨rfl, rfl, rfl⟩

/-- Claim C4 amended: handling a Release sets the button's pressed flag to
false.  The paddle release handler changes nothing else — it deliberately
leaves the lifecycle task running and stored so the task can decide tap vs
hold; the 3BRL raise/lower release handler is the one that cancels a
still-running stored task and clears the handle to none. -/
theorem claim_C4_release_amended :
    (∀ (s : CState) (b : String),
      (handle_release_paddle b s).pressed b = false ∧
      (handle_release_paddle b s).tasks = s.tasks ∧
      (handle_release_paddle b s).taskOf = s.taskOf ∧
      (handle_release_paddle b s).calls = s.calls)
  ∧ (∀ (s : CState) (b : String) (t : Nat) (rec : TaskRec),
      (b = "raise" ∨ b = "lower") → s.tasks b = some t → s.taskOf t = some rec →
      rec.status = TStatus.running →
      (handle_release_3brl b s).pressed b = false ∧
      (handle_release_3brl b s).tasks b = none ∧
      (handle_release_3brl b s).taskOf t =
        some ⟨rec.button, rec.isLifecycle, TStatus.cancelled, rec.phase⟩) := by
  constructor
  · intro s b
    exact ⟨by simp [handle_release_paddle, fupd], rfl, rfl, rfl⟩
  · intro s b t rec hb hst hrec hrun
    rcases hb with rfl | rfl <;>
      simp [handle_release_3brl, hst, hrec, hrun, fupd]

/-- Witness for C4 (amended): releasing "raise" right after a 3BRL press
cancels and clears its stored lifecycle task. -/
theorem claim_C4_witness :
    (handle_release_3brl "raise"
        (handle_press_3brl_light 10 "raise" initState)).tasks "raise" = none :=
  (claim_C4_release_amended.2 (handle_press_3brl_light 10 "raise" initState)
    "raise" 0 ⟨"raise", true, TStatus.running, TPhase.sleeping⟩
    (Or.inl rfl) rfl rfl rfl).2.1

/-- Claim C5 counterexample: press "on", press "on" again (the second press
cancels task 0 and stores the new running task 1 with pressed = true),
then the cancelled task 0 unwinds.  Its finally block resets
pressed["on"] to false and clears the stored handle — clobbering the
superseding press — refuting the claim that after the cancelled task
finishes unwinding the pressed flag remains true and the new task handle
remains stored.  (The cancelled task does make no further action calls.) -/
theorem claim_C5_counterexample :
    (paddle_run "light" [PEv.press "on", PEv.press "on", PEv.unwind 0] initState).pressed "on"
      = false
  ∧ (paddle_run "light" [PEv.press "on", PEv.press "on", PEv.unwind 0] initState).tasks "on"
      = none
  ∧ ((paddle_run "light" [PEv.press "on", PEv.press "on", PEv.unwind 0] initState).taskOf 1).map
      TaskRec.status = some TStatus.running
  ∧ (paddle_run "light" [PEv.press "on", PEv.press "on", PEv.unwind 0] initState).calls = [] :=
  ⟨rfl, rfl, rfl, rfl⟩

/-- Claim C5 amended: a lifecycle task cancelled in its hold-time sleep
performs no further action calls.  The LightActions on/off lifecycle
(which has no finally block) also leaves the pressed flags and task
handles untouched, so a superseding press's state survives; but the paddle
lifecycle's finally block unconditionally resets the button's pressed flag
to false and clears the button's task slot, clobbering the state a
superseding press just wrote. -/
theorem claim_C5_cancelled_unwind_amended :
    (∀ (s : CState) (t : Nat) (rec : TaskRec),
      s.taskOf t = some rec → rec.status = TStatus.cancelled →
      (unwind_task t s).calls = s.calls ∧
      (unwind_task t s).pressed rec.button = false ∧
      (unwind_task t s).tasks rec.button = none ∧
      (unwind_task t s).taskOf t =
        some ⟨rec.button, rec.isLifecycle, TStatus.finished, rec.phase⟩)
  ∧ (∀ (s : CState) (t : Nat) (rec : TaskRec),
      s.taskOf t = some rec → rec.status = TStatus.cancelled →
      (onoff_unwind t s).calls = s.calls ∧
      (onoff_unwind t s).pressed = s.pressed ∧
      (onoff_unwind t s).tasks = s.tasks ∧
      (onoff_unwind t s).taskOf t =
        some ⟨rec.button, rec.isLifecycle, TStatus.finished, rec.phase⟩) := by
  constructor
  · intro s t rec hrec hcanc
    simp [unwind_task, hrec, hcanc, fupd]
  · intro s t rec hrec hcanc
    simp [onoff_unwind, hrec, hcanc, fupd]

/-- Witness for C5 (amended): unwinding the task cancelled by the re-press
of "on" makes no call, and the LightActions-style unwind leaves the task
table's other entries and the dictionaries untouched. -/
theorem claim_C5_witness :
    (onoff_unwind 0 (paddle_run "light" [PEv.press "on", PEv.press "on"] initState)).tasks
      = (paddle_run "light" [PEv.press "on", PEv.press "on"] initState).tasks :=
  (claim_C5_cancelled_unwind_amended.2
    (paddle_run "light" [PEv.press "on", PEv.press "on"] initState) 0
    ⟨"on", true, TStatus.cancelled, TPhase.sleeping⟩ rfl rfl).2.2.1

/-- Claim C1 counterexample: two consecutive "raise" presses on a 3BRL
device in the light domain (no intervening release).  The second
`_handle_raise_lower` stores a new lifecycle task without cancelling the
first: afterwards two lifecycle tasks for "raise" are running
concurrently, task 0 was never cancelled, and the handle slot holds task 1
— refuting both the cancel-first behaviour and the at-most-one-active-task
invariant at this handler. -/
theorem claim_C1_counterexample :
    running_lifecycle_count
      (handle_press_3brl_light 10 "raise"
        (handle_press_3brl_light 10 "raise" initState)) "raise" = 2
  ∧ ((handle_press_3brl_light 10 "raise"
        (handle_press_3brl_light 10 "raise" initState)).taskOf 0).map TaskRec.status
      = some TStatus.running
  ∧ (handle_press_3brl_light 10 "raise"
        (handle_press_3brl_light 10 "raise" initState)).tasks "raise" = some 1 :=
  ⟨rfl, rfl, rfl⟩

/-- Claim C1 amended: the paddle press handler does implement
supersede-on-repress: when the stored task for the button is still
running, handling a Press cancels it before storing the handle of the
newly spawned lifecycle task, leaving the button pressed.  (`t ≠ s.nextId`
says the stored task id is not the fresh id about to be allocated, which
holds in every reachable state.) -/
theorem claim_C1_press_supersedes_amended (s : CState) (b : String) (t : Nat)
    (rec : TaskRec) (ht : t ≠ s.nextId) (hst : s.tasks b = some t)
    (hrec : s.taskOf t = some rec) (hrun : rec.status = TStatus.running) :
    ((handle_press_paddle b s).taskOf t).map TaskRec.status = some TStatus.cancelled
  ∧ (handle_press_paddle b s).tasks b = some s.nextId
  ∧ (handle_press_paddle b s).taskOf s.nextId =
      some ⟨b, true, TStatus.running, TPhase.sleeping⟩
  ∧ (handle_press_paddle b s).pressed b = true := by
  simp [handle_press_paddle, hst, hrec, hrun, fupd, ht]

/-- Witness for C1 (amended): a re-press of "on" cancels the lifecycle
task stored by the first press. -/
theorem claim_C1_witness :
    ((handle_press_paddle "on" (handle_press_paddle "on" initState)).taskOf 0).map
      TaskRec.status = some TStatus.cancelled :=
  (claim_C1_press_supersedes_amended (handle_press_paddle "on" initState) "on" 0
    ⟨"on", true, TStatus.running, TPhase.sleeping⟩ (by decide) rfl rfl rfl).1

/-- Claim C7 counterexample: a Release of "raise" on a 3BRL cover device
with no prior Press (no stored press timestamp, no task, pressed false —
here the position is also unknown) is not a no-op: `_cover_handle_release`
still issues the stop_cover call. -/
theorem claim_C7_counterexample :
    (cover_handle_release 400 10 "raise" none 0 none initState).calls
      = [ActionCall.stopCover] := rfl

/-- Claim C7 amended: a Release with no prior Press is a no-op for the
paddle release handler and for the 3BRL light-domain release handler
(state unchanged, no call, nothing raised — the embeddings are total);
but the 3BRL cover-domain release path always issues a stop_cover call
(preceded by a position step when the position is known and the elapsed
time is below hold_time), even when the button was never pressed. -/
theorem claim_C7_idempotent_release_amended :
    (∀ (s : CState) (b : String), s.pressed b = false →
      handle_release_paddle b s = s)
  ∧ (∀ (s : CState) (b : String), (b = "raise" ∨ b = "lower") →
      s.pressed b = false → s.tasks b = none → handle_release_3brl b s = s)
  ∧ (∀ (hold_time step_pct now : Int) (b : String) (s : CState),
      (cover_handle_release hold_time step_pct b none now none s).calls
        = s.calls ++ [ActionCall.stopCover])
  ∧ (∀ (hold_time step_pct now p : Int) (b : String) (s : CState),
      0 < hold_time →
      (cover_handle_release hold_time step_pct b none now (some p) s).calls
        = s.calls ++ [cover_step b p (if step_pct = 0 then 5 else step_pct),
                      ActionCall.stopCover]) := by
  refine ⟨?_, ?_, ?_, ?_⟩
  · intro s b h
    have hp : fupd s.pressed b false = s.pressed := by
      funext x
      by_cases hx : x = b
      · subst hx
        simp [fupd, h]
      · simp [fupd, hx]
    show { s with pressed := fupd s.pressed b false } = s
    rw [hp]
  · intro s b hb h1 h2
    have hp : fupd s.pressed b false = s.pressed := by
      funext x
      by_cases hx : x = b
      · subst hx
        simp [fupd, h1]
      · simp [fupd, hx]
    have htk : fupd s.tasks b none = s.tasks := by
      funext x
      by_cases hx : x = b
      · subst hx
        simp [fupd, h2]
      · simp [fupd, hx]
    rcases hb with rfl | rfl <;>
      simp [handle_release_3brl, h2, hp, htk]
  · intro hold_time step_pct now b s
    simp [cover_handle_release, cover_stop_call]
  · intro hold_time step_pct now p b s hht
    simp [cover_handle_release, cover_stop_call, hht]

/-- Witness for C7 (amended): a paddle release of a never-pressed "on"
leaves the controller state exactly as it was, while a cover-path release
of a never-pressed "raise" with the position known at 50 issues the
position step to 60 followed by stop_cover. -/
theorem claim_C7_witness :
    handle_release_paddle "on" initState = initState
  ∧ (cover_handle_release 400 10 "raise" none 0 (some 50) initState).calls
      = [ActionCall.setCoverPosition 60, ActionCall.stopCover] :=
  ⟨claim_C7_idempotent_release_amended.1 initState "on" rfl,
   claim_C7_idempotent_release_amended.2.2.2 400 10 0 50 "raise" initState (by decide)⟩

/-- Claim C2 counterexample: `PicoController._ramp_loop` has no step cap.
With the button held and the light's brightness attribute absent
(`_brightness_in_range` then returns true forever), the loop has made 150
brightness-changing calls after 150 iterations and is still running —
refuting the claim that every ramp loop in every domain performs at most
MaxSteps (100) ticks and then terminates on its own. -/
theorem claim_C2_counterexample :
    brightness_in_range ["light.kitchen"] (fun _ => some none) 1 = true
  ∧ ramp_loop_go (fun _ => true)
      (fun _ => brightness_in_range ["light.kitchen"] (fun _ => some none) 1) 0 150
      = ⟨150, none⟩ :=
  ⟨rfl, rfl⟩

/-- Helper for C2: whenever the remaining fuel exceeds the remaining step
budget `100 - steps`, the `_ramp` loop of behaviors.py terminates and
makes at most `100 - steps` further brightness calls. -/
theorem ramp_go_capped (pressed : Nat → Bool)
    (direction step_value min_brightness : Int) :
    ∀ (fuel steps : Nat) (current : Int) (iter : Nat), 100 - steps < fuel →
      (ramp_go pressed direction step_value min_brightness current steps iter fuel).ticks
        ≤ 100 - steps ∧
      (ramp_go pressed direction step_value min_brightness current steps iter fuel).outcome
        ≠ none := by
  intro fuel
  induction fuel with
  | zero =>
    intro steps current iter hf
    exact absurd hf (Nat.not_lt_zero _)
  | succ fuel ih =>
    intro steps current iter hf
    by_cases hp : pressed iter = false
    · simp [ramp_go, hp]
    · by_cases hs : steps ≥ 100
      · simp [ramp_go, hp, hs]
      · by_cases hb1 : direction < 0 ∧ current + step_value * direction ≤ min_brightness
        · simp [ramp_go, hp, hs, hb1]
          omega
        · by_cases hb2 : direction > 0 ∧ current + step_value * direction ≥ 255
          · simp [ramp_go, hp, hs, hb1, hb2]
            omega
          · obtain ⟨hr1, hr2⟩ :=
              ih (steps + 1) (current + step_value * direction) (iter + 1) (by omega)
            simp [ramp_go, hp, hs, hb1, hb2]
            exact ⟨by omega, hr2⟩

/-- Helper for C2: if the pressed flag never reads false, the `_ramp` loop
never exits through the release check. -/
theorem ramp_go_never_released (pressed : Nat → Bool)
    (direction step_value min_brightness : Int) (hp : ∀ i, pressed i = true) :
    ∀ (fuel steps : Nat) (current : Int) (iter : Nat),
      (ramp_go pressed direction step_value min_brightness current steps iter fuel).outcome
        ≠ some RampStop.released := by
  intro fuel
  induction fuel with
  | zero =>
    intro steps current iter
    simp [ramp_go]
  | succ fuel ih =>
    intro steps current iter
    have hp1 : ¬ (pressed iter = false) := by simp [hp]
    by_cases hs : steps ≥ 100
    · simp [ramp_go, hp1, hs]
    · by_cases hb1 : direction < 0 ∧ current + step_value * direction ≤ min_brightness
      · simp [ramp_go, hp1, hs, hb1]
      · by_cases hb2 : direction > 0 ∧ current + step_value * direction ≥ 255
        · simp [ramp_go, hp1, hs, hb1, hb2]
        · simpa [ramp_go, hp1, hs, hb1, hb2] using
            ih (steps + 1) (current + step_value * direction) (iter + 1)

/-- Claim C2 amended: the MaxSteps (100) safety cap holds for the unified
ramp `SharedBehaviors._ramp`: if the button's pressed flag never reads
false and the run does not exit through the boundary check, the loop makes
at most 100 brightness-changing calls and then terminates on its own, with
the cap as its exit reason.  (`PicoController._ramp_loop` has no such cap
— see the counterexample.) -/
theorem claim_C2_safety_cap_amended (pressed : Nat → Bool)
    (direction step_value min_brightness current : Int) (fuel : Nat)
    (hp : ∀ i, pressed i = true) (hf : 101 ≤ fuel)
    (hnb : (ramp_go pressed direction step_value min_brightness current 0 0 fuel).outcome
      ≠ some RampStop.boundary) :
    (ramp_go pressed direction step_value min_brightness current 0 0 fuel).ticks ≤ 100
  ∧ (ramp_go pressed direction step_value min_brightness current 0 0 fuel).outcome
      = some RampStop.capReached := by
  obtain ⟨h1, h2⟩ :=
    ramp_go_capped pressed direction step_value min_brightness fuel 0 current 0 (by omega)
  have h3 := ramp_go_never_released pressed direction step_value min_brightness hp fuel 0 current 0
  refine ⟨by simpa using h1, ?_⟩
  rcases ho : (ramp_go pressed direction step_value min_brightness current 0 0 fuel).outcome
    with _ | r
  · exact absurd ho h2
  · cases r with
    | released => exact absurd ho h3
    | capReached => rfl
    | boundary => exact absurd ho hnb

/-- Witness for C2 (amended): a held button with a zero step value (so no
boundary is ever crossed) makes the loop exit through the safety cap. -/
theorem claim_C2_witness :
    (ramp_go (fun _ => true) 1 0 1 0 0 0 101).ticks ≤ 100
  ∧ (ramp_go (fun _ => true) 1 0 1 0 0 0 101).outcome = some RampStop.capReached :=
  claim_C2_safety_cap_amended (fun _ => true) 1 0 1 0 101
    (fun _ => rfl) (by omega) (by decide)

/-- Claim C6: the ramp stops as soon as the boundary is observed, without
requiring a release.  For the iteration of `SharedBehaviors._ramp` at
which the next brightness would reach the bound (at/above 255 going up,
at/below the configured minimum going down) while the button is still
held, the loop makes only that one final clamping call and exits with the
boundary outcome — independently of how much longer the button stays held;
and for `PicoController._ramp_loop`, an iteration at which
`_brightness_in_range` reports false ends the loop with that iteration's
single call. -/
theorem claim_C6_boundary_stops (pressed : Nat → Bool)
    (direction step_value min_brightness current : Int) (steps iter fuel : Nat)
    (hp : pressed iter = true) (hs : steps < 100) :
    (0 < direction → 255 ≤ current + step_value * direction →
      ramp_go pressed direction step_value min_brightness current steps iter (fuel + 1)
        = ⟨1, some RampStop.boundary⟩)
  ∧ (direction < 0 → current + step_value * direction ≤ min_brightness →
      ramp_go pressed direction step_value min_brightness current steps iter (fuel + 1)
        = ⟨1, some RampStop.boundary⟩)
  ∧ (∀ in_range : Nat → Bool, in_range iter = false →
      ramp_loop_go pressed in_range iter (fuel + 1) = ⟨1, some RampStop.boundary⟩) := by
  have h1 : ¬ (pressed iter = false) := by simp [hp]
  have h2 : ¬ (steps ≥ 100) := by omega
  refine ⟨?_, ?_, ?_⟩
  · intro hd hb
    have h3 : ¬ (direction < 0 ∧ current + step_value * direction ≤ min_brightness) := by
      rintro ⟨hlt, _⟩
      omega
    have h4 : direction > 0 ∧ current + step_value * direction ≥ 255 := ⟨hd, hb⟩
    simp [ramp_go, h1, h2, h3, h4]
  · intro hd hb
    have h3 : direction < 0 ∧ current + step_value * direction ≤ min_brightness := ⟨hd, hb⟩
    simp [ramp_go, h1, h2, h3]
  · intro in_range hir
    simp [ramp_loop_go, h1, hir]

/-- Witness for C6: going up from brightness 100 with step value 200 the
unified ramp clamps and stops in one call; and a reading of 254 makes
`_brightness_in_range` end the paddle ramp loop after one call. -/
theorem claim_C6_witness :
    ramp_go (fun _ => true) 1 200 1 100 0 0 5 = ⟨1, some RampStop.boundary⟩
  ∧ ramp_loop_go (fun _ => true)
      (fun _ => brightness_in_range ["light.kitchen"] (fun _ => some (some 254)) 1) 0 5
      = ⟨1, some RampStop.boundary⟩ := by
  have h := claim_C6_boundary_stops (fun _ => true) 1 200 1 100 0 0 4 rfl (by omega)
  exact ⟨h.1 (by omega) (by omega), h.2.2 _ (by decide)⟩

end PicoLink
